import Mathlib

/-!
Verification of the pgx LISTEN/NOTIFY pub/sub core
(package pubsub/pgx, file pgx.go, together with pubsub/options.go).

The development is a shallow embedding: Go structs become Lean structures,
methods become pure functions, and the interaction with the database and the
scheduler is made explicit through oracle parameters (an exec oracle for the
outcome of SQL commands submitted to the listener goroutine, race winners for
Go select statements, a per-subscriber send outcome for channel sends).
Machine errors are represented as Option Error with none standing for a nil
Go error.  Mutex-guarded code is embedded as the sequential function it
computes under the lock.
-/

namespace PgxPubSub

/-- Go error values, abstracted to their message; none of the verified
properties depends on more structure than equality. -/
abbrev Error := String

/-- The pubsub.Msg record: a notification with a topic and a payload
(payload bytes abstracted to a string). -/
structure Msg where
  Topic : String
  Payload : String
deriving DecidableEq

/-- pubsub.FormatTopic (options.go line 104): a pure colon-join of
app, namespace and topic name. -/
def FormatTopic (app ns topic : String) : String :=
  app ++ ":" ++ ns ++ ":" ++ topic

/-- pgx.Config: app and namespace identifiers plus channel-sink settings
(durations abstracted to Nat milliseconds). -/
structure Config where
  App : String
  Namespace : String
  SendTimeout : Nat
  ChannelSize : Nat
deriving DecidableEq

/-- pubsub.SubscribeConfig (options.go line 43), restricted to the fields the
pgx backend reads: the formatted topic list, identifiers and sink settings. -/
structure SubscribeConfig where
  Topics : List String
  App : String
  Namespace : String
  SendTimeout : Nat
  ChannelSize : Nat
deriving DecidableEq

/-- pgxSubscriber (pgx.go line 357).  The handler field is the optional
callback sink; the Go channel sink is modelled by the hasChannel flag
together with two ghost fields recording the effect of close(channel):
onceUsed mirrors the sync.Once guard and channelCloseCount counts how many
times the channel has actually been closed.  The back pointer ps and the
mutex have no pure content and are elided. -/
structure pgxSubscriber where
  config : SubscribeConfig
  handler : Option (Msg → Option Error)
  hasChannel : Bool
  closed : Bool
  onceUsed : Bool
  channelCloseCount : Nat

/-- Double-quoted identifier, as produced by the %q format verb used for
LISTEN/UNLISTEN channel names. -/
def quoteIdent (s : String) : String :=
  "\"" ++ s ++ "\""

/-- The SQL text of a LISTEN command (pgx.go lines 312 and 413). -/
def listenSQL (channel : String) : String :=
  "LISTEN " ++ quoteIdent channel

/-- The SQL text of an UNLISTEN command (pgx.go line 438). -/
def unlistenSQL (channel : String) : String :=
  "UNLISTEN " ++ quoteIdent channel

/-- A registration command successfully executed on the exclusive listening
connection, in structured form. -/
inductive Cmd where
  | listen (channel : String)
  | unlisten (channel : String)
deriving DecidableEq

/-- The SQL text a Cmd stands for. -/
def Cmd.sql : Cmd → String
  | .listen c => listenSQL c
  | .unlisten c => unlistenSQL c

/-- Effect of one successfully executed registration command on the set of
channels the exclusive database connection listens on (the database's native
LISTEN/NOTIFY semantics: LISTEN registers a channel, UNLISTEN removes it). -/
def applyCmd (regs : List String) : Cmd → List String
  | .listen c => if regs.contains c then regs else regs ++ [c]
  | .unlisten c => regs.erase c

/-- Effect of a sequence of executed registration commands. -/
def applyCmds (regs : List String) : List Cmd → List String
  | [] => regs
  | c :: rest => applyCmds (applyCmd regs c) rest

/-- Result of a subscriber operation: the updated subscriber state, the
returned Go error, and the registration commands the operation successfully
executed on the exclusive connection. -/
structure OpResult where
  sub : pgxSubscriber
  err : Option Error
  cmds : List Cmd

/-- pgxSubscriber.matches (pgx.go line 388): true iff the subscriber is not
closed and the formatted topic is in its topic list. -/
def pgxSubscriber.matches (s : pgxSubscriber) (topic : String) : Bool :=
  if s.closed then false else s.config.Topics.contains topic

/-- pgxSubscriber.Close (pgx.go line 370): under the lock, return nil at once
if already closed; otherwise mark closed and, for a channel sink, close the
channel under the sync.Once guard.  No registration command is executed and
the facade registry is not touched. -/
def pgxSubscriber.Close (s : pgxSubscriber) : OpResult :=
  if s.closed then ⟨s, none, []⟩
  else
    let s1 := { s with closed := true }
    if s1.hasChannel then
      if s1.onceUsed then ⟨s1, none, []⟩
      else
        let s2 := { s1 with onceUsed := true,
                            channelCloseCount := s1.channelCloseCount + 1 }
        ⟨s2, none, []⟩
    else ⟨s1, none, []⟩

/-- pgxSubscriber.Subscribe (pgx.go line 399): for each topic, format it,
skip it when already present, otherwise submit a LISTEN command and, on
success, append the formatted topic; a command error is returned wrapped,
stopping the loop. -/
def pgxSubscriber.Subscribe (exec : String → Option Error) :
    pgxSubscriber → List String → OpResult
  | s, [] => ⟨s, none, []⟩
  | s, t :: rest =>
    let ft := FormatTopic s.config.App s.config.Namespace t
    if s.config.Topics.contains ft then
      pgxSubscriber.Subscribe exec s rest
    else
      match exec (listenSQL ft) with
      | some e => ⟨s, some ("failed to listen to topic: " ++ e), []⟩
      | none =>
        let s2 := { s with config :=
          { s.config with Topics := s.config.Topics ++ [ft] } }
        let r := pgxSubscriber.Subscribe exec s2 rest
        ⟨r.sub, r.err, Cmd.listen ft :: r.cmds⟩

/-- pgxSubscriber.Unsubscribe (pgx.go line 423): for each topic, format it,
skip it when absent (slices.Index yields -1), otherwise submit an UNLISTEN
command and, on success, delete the formatted topic at its index; a command
error is returned wrapped, stopping the loop. -/
def pgxSubscriber.Unsubscribe (exec : String → Option Error) :
    pgxSubscriber → List String → OpResult
  | s, [] => ⟨s, none, []⟩
  | s, t :: rest =>
    let ft := FormatTopic s.config.App s.config.Namespace t
    match s.config.Topics.indexOf? ft with
    | none => pgxSubscriber.Unsubscribe exec s rest
    | some idx =>
      match exec (unlistenSQL ft) with
      | some e => ⟨s, some ("failed to unlisten from topic: " ++ e), []⟩
      | none =>
        let s2 := { s with config :=
          { s.config with Topics := s.config.Topics.eraseIdx idx } }
        let r := pgxSubscriber.Unsubscribe exec s2 rest
        ⟨r.sub, r.err, Cmd.unlisten ft :: r.cmds⟩

/-- Winner of a Go select between an operation becoming ready and the
caller's context Done channel firing; supplied by the scheduler oracle. -/
inductive RaceWinner where
  | opReady
  | ctxDone
deriving DecidableEq

/-- PubSub.execCommand (pgx.go line 193): enqueue the command racing against
ctx.Done (first select); on success interrupt any active wait (pure effect on
the listener, not observable here); then race the command's result slot
against ctx.Done (second select).  enqueueRace and resultRace are the
scheduler's choices of select winner, ctxErr is ctx.Err() when Done fires,
and cmdResult the error the listener put into the result channel. -/
def execCommand (enqueueRace resultRace : RaceWinner)
    (ctxErr : Error) (cmdResult : Option Error) : Option Error :=
  match enqueueRace with
  | .ctxDone => some ctxErr
  | .opReady =>
    match resultRace with
    | .opReady => cmdResult
    | .ctxDone => some ctxErr

/-- A Go context, reduced to its cancellation state: err is
context cause when the context is cancelled or past its deadline. -/
structure Ctx where
  err : Option Error
deriving DecidableEq

/-- context.WithoutCancel (pgx.go line 249): the derived context is never
cancelled. -/
def withoutCancel (_ : Ctx) : Ctx :=
  ⟨none⟩

/-- A context-aware database operation (pool Acquire, Exec, ExecContext):
it fails with the context's error when the context is already cancelled,
and otherwise yields the underlying operation's outcome. -/
def ctxExec (c : Ctx) (underlying : Option Error) : Option Error :=
  match c.err with
  | some e => some e
  | none => underlying

/-- Which outbound backend the facade holds (pgx.go lines 265 and 276):
a pgxpool.Pool or a database/sql DB; the constructors New and NewStdLib
guarantee exactly one of the two is set. -/
inductive Backend where
  | pool
  | stdlib
deriving DecidableEq

/-- Topic formatting on the publish path (pgx.go line 261). -/
def publishChannel (app ns topic : String) : String :=
  FormatTopic app ns topic

/-- Topic formatting on the subscribe/LISTEN path (pgx.go line 308). -/
def subscribeChannel (app ns topic : String) : String :=
  FormatTopic app ns topic

/-- Outcome of PubSub.Publish: the returned Go error, the formatted NOTIFY
channel, and whether the NOTIFY statement was actually submitted for
execution. -/
structure PublishResult where
  err : Option Error
  channel : String
  notifyAttempted : Bool
deriving DecidableEq

/-- PubSub.Publish (pgx.go line 241): strip cancellation from the caller's
context, format the topic, then on the pool backend acquire a connection and
execute NOTIFY, and on the stdlib backend execute NOTIFY via the DB handle;
acquire and execution errors are returned wrapped.  acquireRes and execRes
are the underlying outcomes of the pool acquire and the NOTIFY execution. -/
def PubSub.Publish (ctx : Ctx) (backend : Backend)
    (acquireRes execRes : Option Error) (app ns topic : String) :
    PublishResult :=
  let ctx2 := withoutCancel ctx
  let channel := publishChannel app ns topic
  match backend with
  | .pool =>
    match ctxExec ctx2 acquireRes with
    | some e => ⟨some ("failed to acquire connection: " ++ e), channel, false⟩
    | none =>
      match ctxExec ctx2 execRes with
      | some e => ⟨some ("failed to publish event: " ++ e), channel, true⟩
      | none => ⟨none, channel, true⟩
  | .stdlib =>
    match ctxExec ctx2 execRes with
    | some e => ⟨some ("failed to publish event: " ++ e), channel, true⟩
    | none => ⟨none, channel, true⟩

/-- PubSub.subscribe (pgx.go line 287): build the subscription config from
the facade defaults, format the topic, submit the LISTEN command, and on
success return the fresh subscriber (registered by appending it to the
facade's subscriber list); a command error is returned wrapped.  Options are
elided: the config starts from the facade defaults. -/
def PubSub.subscribe (exec : String → Option Error) (cfg : Config)
    (topic : String) : Except Error pgxSubscriber :=
  let ft := subscribeChannel cfg.App cfg.Namespace topic
  match exec (listenSQL ft) with
  | some e => Except.error ("failed to listen to topic: " ++ e)
  | none =>
    Except.ok
      { config :=
          { Topics := [ft], App := cfg.App, Namespace := cfg.Namespace,
            SendTimeout := cfg.SendTimeout, ChannelSize := cfg.ChannelSize },
        handler := none, hasChannel := false, closed := false,
        onceUsed := false, channelCloseCount := 0 }

/-- PubSub.Subscribe (pgx.go line 330): call subscribe and return nil when it
failed, discarding the error; otherwise attach the handler sink and return
the consumer. -/
def PubSub.Subscribe (exec : String → Option Error) (cfg : Config)
    (topic : String) (handler : Msg → Option Error) : Option pgxSubscriber :=
  match PubSub.subscribe exec cfg topic with
  | .error _ => none
  | .ok s => some { s with handler := some handler }

/-- PubSub.SubscribeChan (pgx.go line 344): call subscribe and return
(nil, nil) when it failed, discarding the error; otherwise allocate the
buffered channel sink and return the consumer with its channel. -/
def PubSub.SubscribeChan (exec : String → Option Error) (cfg : Config)
    (topic : String) : Option pgxSubscriber :=
  match PubSub.subscribe exec cfg topic with
  | .error _ => none
  | .ok s => some { s with hasChannel := true }

/-- Registry effect of invoking Close on the i-th registered subscriber:
pgx.go nowhere removes an element from PubSub.subscribers (the slice is only
appended to at line 323 and iterated at lines 118 and 222), so the registry
keeps its shape and only the closed subscriber's own state changes. -/
def registryAfterClose : List pgxSubscriber → Nat → List pgxSubscriber
  | [], _ => []
  | s :: rest, 0 => (pgxSubscriber.Close s).sub :: rest
  | s :: rest, i + 1 => s :: registryAfterClose rest i

/-- Iterated Subscriber.Close calls (the mutex serializes concurrent calls,
so any interleaving is some sequential order of the calls). -/
def closeIter : Nat → pgxSubscriber → pgxSubscriber
  | 0, s => s
  | n + 1, s => (pgxSubscriber.Close (closeIter n s)).sub

/-- One event of the broadcast loop, indexed by the subscriber's position in
the registry: a handler invocation that returned nil, a handler error that
was logged, a channel send that completed, or a channel send that timed out
and was logged. -/
inductive BroadcastEvent where
  | handlerOk (i : Nat)
  | handlerErrorLogged (i : Nat) (e : Error)
  | chanSent (i : Nat)
  | chanTimeoutLogged (i : Nat)
deriving DecidableEq

/-- The registry index an event concerns. -/
def BroadcastEvent.subscriberIdx : BroadcastEvent → Nat
  | .handlerOk i => i
  | .handlerErrorLogged i _ => i
  | .chanSent i => i
  | .chanTimeoutLogged i => i

/-- PubSub.broadcast (pgx.go line 218) from registry position i on: skip
subscribers that do not match; invoke a handler sink synchronously, logging
a returned error; otherwise race a channel send against the send timeout
(sendOk is the oracle saying whether the send wins).  The Go function has no
return value: the only output is this event log. -/
def broadcastFrom (sendOk : Nat → Bool) (msg : Msg) :
    Nat → List pgxSubscriber → List BroadcastEvent
  | _, [] => []
  | i, s :: rest =>
    (if s.matches msg.Topic then
      match s.handler with
      | some f =>
        match f msg with
        | some e => [BroadcastEvent.handlerErrorLogged i e]
        | none => [BroadcastEvent.handlerOk i]
      | none =>
        if s.hasChannel then
          if sendOk i then [BroadcastEvent.chanSent i]
          else [BroadcastEvent.chanTimeoutLogged i]
        else []
    else []) ++ broadcastFrom sendOk msg (i + 1) rest

/-- PubSub.broadcast over the whole registry. -/
def PubSub.broadcast (sendOk : Nat → Bool) (msg : Msg)
    (subs : List pgxSubscriber) : List BroadcastEvent :=
  broadcastFrom sendOk msg 0 subs

/-- Registry positions, from i on, of the subscribers a broadcast delivers
to: those that match the topic and have a sink.  Defined without reference
to any handler's result. -/
def sinkMatchingIdxFrom (msg : Msg) : Nat → List pgxSubscriber → List Nat
  | _, [] => []
  | i, s :: rest =>
    (if s.matches msg.Topic && (s.handler.isSome || s.hasChannel) then [i]
     else []) ++ sinkMatchingIdxFrom msg (i + 1) rest

/-- What one iteration of the listener loop decides to do. -/
inductive LoopOutcome where
  | exitLoop
  | continueNow
  | logAndBackoff (ms : Nat)
  | deliver (m : Msg)
deriving DecidableEq

/-- One iteration of PubSub.listen (pgx.go lines 138 to 175), after draining
pending commands, as the literal if-chain of the source: exit when the outer
listener context is already done; otherwise wait for a notification under a
child cancellable context.  On a successful wait, deliver the notification.
On a wait error: exit when the outer context is done by now; continue at
once when the child wait context is done; otherwise log the error and back
off 20 milliseconds before continuing.  waitCtxDone is the value of
waitCtx.Err() being non-nil at the line-161 check; the program forces it
(see waitCtxDoneAtCheck), it is a free input here only so that the source's
branch structure is embedded in full. -/
def listenIteration (outerDoneBefore : Bool) (wait : Except Error Msg)
    (outerDoneAfter : Bool) (waitCtxDone : Bool) : LoopOutcome :=
  if outerDoneBefore then .exitLoop
  else
    match wait with
    | .ok m => .deliver m
    | .error _ =>
      if outerDoneAfter then .exitLoop
      else if waitCtxDone then .continueNow
      else .logAndBackoff 20

/-- Value of the line-161 check waitCtx.Err() being non-nil when it is
reached: cancelWait() at pgx.go line 154 runs unconditionally as soon as
WaitForNotification returns, before any of the error checks, and cancelling
a context synchronously makes its Err() non-nil — so at line 161 the child
wait context is always done, whatever made the wait return. -/
def waitCtxDoneAtCheck : Bool :=
  true

/-- One iteration of PubSub.listen as the program actually runs it: the
child-wait-context input of listenIteration takes the value the
unconditional cancelWait() at line 154 forces on it. -/
def listenIterationRun (outerDoneBefore : Bool) (wait : Except Error Msg)
    (outerDoneAfter : Bool) : LoopOutcome :=
  listenIteration outerDoneBefore wait outerDoneAfter waitCtxDoneAtCheck

/-- Listener-loop lifecycle state of the facade: whether the sync.Once has
fired and how many loop goroutines have ever been spawned. -/
structure ListenerState where
  started : Bool
  spawnCount : Nat
deriving DecidableEq

/-- Facade construction (New / NewStdLib, pgx.go lines 42 and 72): neither
constructor calls ensureListenerStarted, so no loop is running. -/
def newListenerState : ListenerState :=
  ⟨false, 0⟩

/-- PubSub.ensureListenerStarted (pgx.go line 126): the sync.Once body spawns
the listen goroutine only on the first call. -/
def ensureListenerStarted (st : ListenerState) : ListenerState :=
  if st.started then st
  else { started := true, spawnCount := st.spawnCount + 1 }

/-- Listener-loop lifecycle after n Subscribe/SubscribeChan calls, each of
which invokes ensureListenerStarted (pgx.go line 305). -/
def subscribeCalls : Nat → ListenerState
  | 0 => newListenerState
  | n + 1 => ensureListenerStarted (subscribeCalls n)

/-- Concrete formatted topic used by the concrete test inputs below. -/
def demoTopic : String :=
  FormatTopic "app" "default" "orders"

/-- Concrete subscription config listening on demoTopic. -/
def demoCfg : SubscribeConfig :=
  ⟨[demoTopic], "app", "default", 10000, 100⟩

/-- Concrete handler subscriber whose handler always fails. -/
def errHandlerSub : pgxSubscriber :=
  ⟨demoCfg, some (fun _ => some "handler failed"), false, false, false, 0⟩

/-- Concrete handler subscriber whose handler always succeeds. -/
def okHandlerSub : pgxSubscriber :=
  ⟨demoCfg, some (fun _ => none), false, false, false, 0⟩

/-- Concrete notification on demoTopic. -/
def demoMsg : Msg :=
  ⟨demoTopic, "hello"⟩

/-- Concrete facade config with the package defaults. -/
def demoFacadeCfg : Config :=
  ⟨"app", "default", 10000, 100⟩

/-- Concrete open subscriber with an empty topic list. -/
def emptyTopicsSub : pgxSubscriber :=
  ⟨⟨[], "app", "default", 10000, 100⟩, none, false, false, false, 0⟩

/-- Concrete open subscriber listening on two distinct formatted topics. -/
def twoTopicSub : pgxSubscriber :=
  ⟨⟨[FormatTopic "app" "default" "a", FormatTopic "app" "default" "b"],
    "app", "default", 10000, 100⟩, none, false, false, false, 0⟩

/-- Concrete fresh channel-sink subscriber on demoTopic. -/
def chanSub : pgxSubscriber :=
  ⟨demoCfg, none, true, false, false, 0⟩

/-- Helper: any positive number of Subscribe calls leaves the listener
lifecycle in the started state with exactly one spawned loop. -/
theorem subscribeCalls_succ_eq (n : Nat) :
    subscribeCalls (n + 1) = ⟨true, 1⟩ := by
  induction n with
  | zero => rfl
  | succ m ih =>
    have h : subscribeCalls (m + 1 + 1) =
        ensureListenerStarted (subscribeCalls (m + 1)) := rfl
    rw [h, ih]
    rfl

/-- C3: execCommand returns either the enqueued command's result error or the
caller context's error, whichever select resolves first; when the context is
already done at enqueue time it returns the context's error without waiting,
and likewise while awaiting the result. -/
theorem execCommand_races_result_against_ctx (er rr : RaceWinner)
    (ce : Error) (cr : Option Error) :
    (execCommand er rr ce cr = cr ∨ execCommand er rr ce cr = some ce) ∧
    execCommand RaceWinner.ctxDone rr ce cr = some ce ∧
    execCommand RaceWinner.opReady RaceWinner.ctxDone ce cr = some ce ∧
    execCommand RaceWinner.opReady RaceWinner.opReady ce cr = cr := by
  refine ⟨?_, rfl, rfl, rfl⟩
  cases er with
  | ctxDone => exact Or.inr rfl
  | opReady => cases rr with
    | opReady => exact Or.inl rfl
    | ctxDone => exact Or.inr rfl

/-- C5: the listener loop indeed never terminates on a wait error alone (on
the error path it exits exactly when the outer context is done), but the
claimed logged 20 millisecond backoff for non-deliberate wait errors is dead
code: the unconditional cancelWait() at pgx.go line 154 makes the child wait
context done before the line-161 check, so every wait error with the outer
context live — a genuine connection error as much as a deliberate
interrupt — continues immediately, with no log and no backoff; the
logAndBackoff outcome would require the child wait context not to be done,
which the program rules out. -/
theorem wait_error_continues_without_backoff (e : Error) (odB odA : Bool) :
    listenIterationRun false (Except.error e) false = LoopOutcome.continueNow ∧
    (∀ ms : Nat,
      listenIterationRun odB (Except.error e) odA ≠
        LoopOutcome.logAndBackoff ms) ∧
    (listenIterationRun odB (Except.error e) odA = LoopOutcome.exitLoop ↔
      (odB = true ∨ odA = true)) ∧
    (∀ wcd : Bool,
      listenIteration odB (Except.error e) odA wcd =
          LoopOutcome.logAndBackoff 20 →
        wcd = false) := by
  refine ⟨rfl, ?_, ?_, ?_⟩
  · intro ms
    cases odB <;> cases odA <;>
      simp [listenIterationRun, listenIteration, waitCtxDoneAtCheck]
  · cases odB <;> cases odA <;>
      simp [listenIterationRun, listenIteration, waitCtxDoneAtCheck]
  · intro wcd
    cases odB <;> cases odA <;> cases wcd <;> simp [listenIteration]

/-- Witness for C5: a transient connection error with both contexts live is
followed by an immediate continue, not by the 20 millisecond backoff the
spec describes. -/
theorem wait_error_continues_without_backoff_witness :
    listenIterationRun false (Except.error "connection reset") false =
      LoopOutcome.continueNow ∧
    listenIterationRun false (Except.error "connection reset") false ≠
      LoopOutcome.logAndBackoff 20 :=
  ⟨(wait_error_continues_without_backoff "connection reset" false false).1,
   (wait_error_continues_without_backoff "connection reset" false false).2.1 20⟩

/-- C6: Publish strips cancellation from the caller's context, so its outcome
is independent of the caller's cancellation state; with an already-cancelled
context it still attempts the NOTIFY, completes when acquire and execution
succeed, and errs only from the acquire or execution outcome itself. -/
theorem publish_strips_caller_cancellation (ctx : Ctx) (b : Backend)
    (aq ex : Option Error) (a n t : String) :
    PubSub.Publish ctx b aq ex a n t = PubSub.Publish ⟨none⟩ b aq ex a n t ∧
    (PubSub.Publish ctx b none none a n t).err = none ∧
    (PubSub.Publish ctx b none ex a n t).notifyAttempted = true := by
  refine ⟨rfl, ?_, ?_⟩ <;> cases b <;> cases ex <;> rfl

/-- C7: the formatted topic is the colon-join of app, namespace and topic,
and the publish path and the subscribe/LISTEN path apply this same function:
the channel Publish notifies on and the channel a subscription listens on
coincide for equal app, namespace and topic. -/
theorem topic_format_shared_publish_subscribe (a n t : String) :
    FormatTopic a n t = a ++ ":" ++ n ++ ":" ++ t ∧
    publishChannel a n t = FormatTopic a n t ∧
    subscribeChannel a n t = FormatTopic a n t ∧
    (∀ (ctx : Ctx) (b : Backend) (aq ex : Option Error),
      (PubSub.Publish ctx b aq ex a n t).channel = publishChannel a n t) ∧
    (∀ st ct : Nat,
      (PubSub.subscribe (fun _ => none) ⟨a, n, st, ct⟩ t).toOption.map
        (fun s => s.config.Topics) = some [subscribeChannel a n t]) := by
  refine ⟨rfl, rfl, rfl, ?_, ?_⟩
  · intro ctx b aq ex
    cases b <;> cases aq <;> cases ex <;> rfl
  · intro st ct
    rfl

/-- C9: the facade constructors start no listener loop; across any sequence
of Subscribe/SubscribeChan calls the loop goroutine is spawned exactly once,
lazily on the first call, and ensureListenerStarted is idempotent. -/
theorem listener_loop_spawned_at_most_once (n : Nat) (st : ListenerState) :
    newListenerState.spawnCount = 0 ∧
    (subscribeCalls n).spawnCount = (if n = 0 then 0 else 1) ∧
    ensureListenerStarted (ensureListenerStarted st) = ensureListenerStarted st := by
  refine ⟨rfl, ?_, ?_⟩
  · cases n with
    | zero => rfl
    | succ m => rw [subscribeCalls_succ_eq]; rfl
  · by_cases h : st.started <;> simp [ensureListenerStarted, h]

/-- Helper: the delivery footprint of a broadcast, from any starting index,
is exactly the matching subscribers with a sink — it does not depend on what
any handler returned. -/
theorem broadcastFrom_map_idx (sendOk : Nat → Bool) (msg : Msg) :
    ∀ (subs : List pgxSubscriber) (i : Nat),
      (broadcastFrom sendOk msg i subs).map BroadcastEvent.subscriberIdx =
        sinkMatchingIdxFrom msg i subs := by
  intro subs
  induction subs with
  | nil => intro i; rfl
  | cons s rest ih =>
    intro i
    simp only [broadcastFrom, sinkMatchingIdxFrom, List.map_append, ih]
    congr 1
    cases hm : s.matches msg.Topic
    · simp
    · cases hh : s.handler with
      | some f =>
        cases hf : f msg <;> simp [BroadcastEvent.subscriberIdx, hf]
      | none =>
        cases hc : s.hasChannel <;> cases hs : sendOk i <;>
          simp [BroadcastEvent.subscriberIdx, hc]

/-- Helper: a matching handler subscriber whose handler errs contributes a
logged handler-error event at its registry position. -/
theorem broadcastFrom_logs_handler_error (sendOk : Nat → Bool) (msg : Msg) :
    ∀ (subs : List pgxSubscriber) (i k : Nat) (s : pgxSubscriber)
      (f : Msg → Option Error) (e : Error),
      subs.get? k = some s → s.handler = some f →
      s.matches msg.Topic = true → f msg = some e →
      BroadcastEvent.handlerErrorLogged (i + k) e ∈ broadcastFrom sendOk msg i subs := by
  intro subs
  induction subs with
  | nil =>
    intro i k s f e hget
    simp at hget
  | cons hd rest ih =>
    intro i k s f e hget hh hm hf
    cases k with
    | zero =>
      have hs : hd = s := by simpa using hget
      subst hs
      simp only [broadcastFrom, hm, hh, hf]
      simp
    | succ m =>
      have hget2 : rest.get? m = some s := by simpa using hget
      have hmem := ih (i + 1) m s f e hget2 hh hm hf
      have harith : i + 1 + m = i + (m + 1) := by omega
      rw [harith] at hmem
      simp only [broadcastFrom]
      exact List.mem_append_right _ hmem

/-- C4: during broadcast of one notification, a handler error is only
logged: the broadcast produces no publisher-visible error (its only output
is the event log), every handler error appears as a logged event at that
subscriber's position, and the positions delivered to are exactly the
matching subscribers with a sink, in registry order, independent of any
handler's result. -/
theorem handler_errors_logged_broadcast_continues (sendOk : Nat → Bool)
    (msg : Msg) (subs : List pgxSubscriber) :
    ((PubSub.broadcast sendOk msg subs).map BroadcastEvent.subscriberIdx =
      sinkMatchingIdxFrom msg 0 subs) ∧
    (∀ (k : Nat) (s : pgxSubscriber) (f : Msg → Option Error) (e : Error),
      subs.get? k = some s → s.handler = some f →
      s.matches msg.Topic = true → f msg = some e →
      BroadcastEvent.handlerErrorLogged k e ∈ PubSub.broadcast sendOk msg subs) := by
  constructor
  · exact broadcastFrom_map_idx sendOk msg subs 0
  · intro k s f e hget hh hm hf
    simpa using broadcastFrom_logs_handler_error sendOk msg subs 0 k s f e hget hh hm hf

/-- Witness for C4: with a failing handler at position 0 and a succeeding
handler at position 1, both matching, the failing handler's error is logged
and both positions are still delivered to. -/
theorem handler_errors_logged_broadcast_continues_witness :
    BroadcastEvent.handlerErrorLogged 0 "handler failed" ∈
      PubSub.broadcast (fun _ => true) demoMsg [errHandlerSub, okHandlerSub] ∧
    (PubSub.broadcast (fun _ => true) demoMsg [errHandlerSub, okHandlerSub]).map
      BroadcastEvent.subscriberIdx = [0, 1] :=
  ⟨(handler_errors_logged_broadcast_continues (fun _ => true) demoMsg
      [errHandlerSub, okHandlerSub]).2 0 errHandlerSub
      (fun _ => some "handler failed") "handler failed" rfl rfl (by decide) rfl,
   by decide⟩

/-- C8: on an open subscriber whose topic list holds exactly the two distinct
formatted topics T1 and T2, a successful Unsubscribe of the first topic makes
matches false for T1 while matches stays true for T2, and returns nil. -/
theorem unsubscribe_removes_only_target (app ns t1 t2 : String)
    (exec : String → Option Error) (s : pgxSubscriber)
    (hopen : s.closed = false)
    (happ : s.config.App = app) (hns : s.config.Namespace = ns)
    (htopics : s.config.Topics = [FormatTopic app ns t1, FormatTopic app ns t2])
    (hne : FormatTopic app ns t1 ≠ FormatTopic app ns t2)
    (hexec : exec (unlistenSQL (FormatTopic app ns t1)) = none) :
    ((s.Unsubscribe exec [t1]).sub).matches (FormatTopic app ns t1) = false ∧
    ((s.Unsubscribe exec [t1]).sub).matches (FormatTopic app ns t2) = true ∧
    (s.Unsubscribe exec [t1]).err = none := by
  obtain ⟨⟨tps, sapp, sns, sst, sct⟩, hdl, hc, cl, ou, cc⟩ := s
  simp only at happ hns htopics hopen
  subst happ hns htopics hopen
  simp only [pgxSubscriber.Unsubscribe, List.indexOf?_cons, beq_self_eq_true,
    if_true, hexec, List.eraseIdx, pgxSubscriber.matches]
  simp [beq_iff_eq]
  exact hne

/-- Witness for C8: unsubscribing topic a on a subscriber listening on the
formatted topics a and b suppresses a and keeps b. -/
theorem unsubscribe_removes_only_target_witness :
    ((twoTopicSub.Unsubscribe (fun _ => none) ["a"]).sub).matches
      (FormatTopic "app" "default" "a") = false ∧
    ((twoTopicSub.Unsubscribe (fun _ => none) ["a"]).sub).matches
      (FormatTopic "app" "default" "b") = true ∧
    (twoTopicSub.Unsubscribe (fun _ => none) ["a"]).err = none :=
  unsubscribe_removes_only_target "app" "default" "a" "b" (fun _ => none)
    twoTopicSub rfl rfl rfl rfl (by decide) rfl

/-- Helper: Close always leaves the subscriber marked closed. -/
theorem close_sub_closed (s : pgxSubscriber) :
    (pgxSubscriber.Close s).sub.closed = true := by
  unfold pgxSubscriber.Close
  by_cases h : s.closed
  · simp [h]
  · simp only [h, if_false, Bool.false_eq_true]
    by_cases h2 : s.hasChannel <;> by_cases h3 : s.onceUsed <;> simp [h2, h3]

/-- Helper: Close on an already-closed subscriber changes nothing. -/
theorem close_of_closed (s : pgxSubscriber) (h : s.closed = true) :
    (pgxSubscriber.Close s).sub = s := by
  unfold pgxSubscriber.Close
  simp [h]

/-- Helper: iterating Close one or more times equals a single Close. -/
theorem closeIter_succ_eq (n : Nat) (s : pgxSubscriber) :
    closeIter (n + 1) s = (pgxSubscriber.Close s).sub := by
  induction n with
  | zero => rfl
  | succ m ih =>
    have h : closeIter (m + 1 + 1) s =
        (pgxSubscriber.Close (closeIter (m + 1) s)).sub := rfl
    rw [h, ih, close_of_closed _ (close_sub_closed s)]

/-- Helper: invoking Close on a registered subscriber never shrinks the
facade registry. -/
theorem registryAfterClose_length (reg : List pgxSubscriber) (i : Nat) :
    (registryAfterClose reg i).length = reg.length := by
  induction reg generalizing i with
  | nil => rfl
  | cons s rest ih =>
    cases i with
    | zero => rfl
    | succ m => simp [registryAfterClose, ih]

/-- C10: Subscriber.Close executes no registration command, so the channel
set the exclusive connection listens on is unchanged by Close; delivery to a
closed subscriber is suppressed only locally, by matches turning false; the
UNLISTEN command is issued by an explicit Unsubscribe of a present topic. -/
theorem close_issues_no_unlisten (s u : pgxSubscriber) (t topic : String)
    (exec : String → Option Error) (i : Nat)
    (hidx : u.config.Topics.indexOf?
      (FormatTopic u.config.App u.config.Namespace t) = some i)
    (hexec : exec (unlistenSQL
      (FormatTopic u.config.App u.config.Namespace t)) = none) :
    (pgxSubscriber.Close s).cmds = [] ∧
    (∀ regs : List String, applyCmds regs (pgxSubscriber.Close s).cmds = regs) ∧
    ((pgxSubscriber.Close s).sub).matches topic = false ∧
    (u.Unsubscribe exec [t]).cmds =
      [Cmd.unlisten (FormatTopic u.config.App u.config.Namespace t)] := by
  have hcmds : (pgxSubscriber.Close s).cmds = [] := by
    unfold pgxSubscriber.Close
    by_cases h : s.closed
    · simp [h]
    · simp only [h, if_false, Bool.false_eq_true]
      by_cases h2 : s.hasChannel <;> by_cases h3 : s.onceUsed <;> simp [h2, h3]
  refine ⟨hcmds, ?_, ?_, ?_⟩
  · intro regs
    rw [hcmds]
    rfl
  · have h := close_sub_closed s
    simp [pgxSubscriber.matches, h]
  · simp only [pgxSubscriber.Unsubscribe, hidx, hexec]

/-- Witness for C10: closing a live channel-sink subscriber leaves any
listen set untouched and suppresses matching, while an Unsubscribe of a
present topic emits exactly one UNLISTEN command. -/
theorem close_issues_no_unlisten_witness :
    (pgxSubscriber.Close chanSub).cmds = [] ∧
    applyCmds [demoTopic] (pgxSubscriber.Close chanSub).cmds = [demoTopic] ∧
    ((pgxSubscriber.Close chanSub).sub).matches demoTopic = false ∧
    (twoTopicSub.Unsubscribe (fun _ => none) ["a"]).cmds =
      [Cmd.unlisten (FormatTopic "app" "default" "a")] := by
  have h := close_issues_no_unlisten chanSub twoTopicSub "a" demoTopic
    (fun _ => none) 0 (by decide) rfl
  exact ⟨h.1, h.2.1 [demoTopic], h.2.2.1, h.2.2.2⟩

/-- C1 counterexample: when the LISTEN command fails, the facade Subscribe
and SubscribeChan calls return nil, and the result is identical for two
different execution errors — the execution error is not delivered to the
facade caller in any form. -/
theorem facade_subscribe_drops_error_cex :
    PubSub.Subscribe (fun _ => some "network down") demoFacadeCfg "orders"
      (fun _ => none) = none ∧
    PubSub.SubscribeChan (fun _ => some "network down") demoFacadeCfg
      "orders" = none ∧
    PubSub.Subscribe (fun _ => some "permission denied") demoFacadeCfg
      "orders" (fun _ => none) =
      PubSub.Subscribe (fun _ => some "network down") demoFacadeCfg "orders"
        (fun _ => none) :=
  ⟨rfl, rfl, rfl⟩

/-- C1 amended: the Consumer-level Subscribe and Unsubscribe calls return the
execution error of the command they submitted, wrapped; the facade Subscribe
and SubscribeChan calls do not surface it — on a failed LISTEN they return a
nil consumer (and nil channel), discarding the error value. -/
theorem registration_errors_consumer_level_only
    (cfg : Config) (t u v : String) (e1 e2 e3 : Error)
    (exec1 exec2 exec3 : String → Option Error)
    (s1 s2 : pgxSubscriber) (h : Msg → Option Error) (i : Nat)
    (hnotin : s1.config.Topics.contains
      (FormatTopic s1.config.App s1.config.Namespace t) = false)
    (hx1 : exec1 (listenSQL
      (FormatTopic s1.config.App s1.config.Namespace t)) = some e1)
    (hidx : s2.config.Topics.indexOf?
      (FormatTopic s2.config.App s2.config.Namespace u) = some i)
    (hx2 : exec2 (unlistenSQL
      (FormatTopic s2.config.App s2.config.Namespace u)) = some e2)
    (hx3 : exec3 (listenSQL (subscribeChannel cfg.App cfg.Namespace v)) =
      some e3) :
    (s1.Subscribe exec1 [t]).err = some ("failed to listen to topic: " ++ e1) ∧
    (s2.Unsubscribe exec2 [u]).err =
      some ("failed to unlisten from topic: " ++ e2) ∧
    PubSub.Subscribe exec3 cfg v h = none ∧
    PubSub.SubscribeChan exec3 cfg v = none := by
  refine ⟨?_, ?_, ?_, ?_⟩
  · simp only [pgxSubscriber.Subscribe, hnotin, Bool.false_eq_true, if_false,
      hx1]
  · simp only [pgxSubscriber.Unsubscribe, hidx, hx2]
  · simp only [PubSub.Subscribe, PubSub.subscribe, hx3]
  · simp only [PubSub.SubscribeChan, PubSub.subscribe, hx3]

/-- Witness for C1 amended: concrete failing exec oracles produce the
wrapped errors at the consumer level and nil results at the facade level. -/
theorem registration_errors_consumer_level_only_witness :
    (emptyTopicsSub.Subscribe (fun _ => some "boom") ["x"]).err =
      some ("failed to listen to topic: " ++ "boom") ∧
    (twoTopicSub.Unsubscribe (fun _ => some "bam") ["a"]).err =
      some ("failed to unlisten from topic: " ++ "bam") ∧
    PubSub.Subscribe (fun _ => some "bif") demoFacadeCfg "y"
      (fun _ => none) = none ∧
    PubSub.SubscribeChan (fun _ => some "bif") demoFacadeCfg "y" = none :=
  registration_errors_consumer_level_only demoFacadeCfg "x" "a" "y"
    "boom" "bam" "bif" (fun _ => some "boom") (fun _ => some "bam")
    (fun _ => some "bif") emptyTopicsSub twoTopicSub (fun _ => none) 0
    rfl rfl (by decide) rfl rfl

/-- C2 counterexample: closing the only registered subscriber leaves the
facade registry with one entry — the subscriber is marked closed but is not
removed from the registry (pgx.go never deletes from PubSub.subscribers). -/
theorem close_does_not_deregister_cex :
    (registryAfterClose [chanSub] 0).length = 1 ∧
    registryAfterClose [chanSub] 0 ≠ [] ∧
    (registryAfterClose [chanSub] 0).head?.map pgxSubscriber.closed =
      some true ∧
    (registryAfterClose [chanSub] 0).head?.map (fun s => s.config.Topics) =
      some [demoTopic] := by
  refine ⟨rfl, ?_, rfl, rfl⟩
  intro h
  exact List.noConfusion h

/-- C2 amended: Subscriber.Close is idempotent — after any positive number
of Close calls on a fresh subscriber it is marked closed and a channel sink
has been closed exactly once; but the subscriber is not removed from the
facade registry: the registry keeps its length, delivery being suppressed
only through the closed flag. -/
theorem close_idempotent_marks_closed (n : Nat) (s : pgxSubscriber)
    (reg : List pgxSubscriber) (i : Nat)
    (hn : 1 ≤ n) (hcl : s.closed = false) (hou : s.onceUsed = false)
    (hcc : s.channelCloseCount = 0) :
    closeIter n s = (pgxSubscriber.Close s).sub ∧
    (closeIter n s).closed = true ∧
    (closeIter n s).channelCloseCount = (if s.hasChannel then 1 else 0) ∧
    (registryAfterClose reg i).length = reg.length := by
  obtain ⟨m, rfl⟩ : ∃ m, n = m + 1 := by
    cases n with
    | zero => exact absurd hn (by simp)
    | succ k => exact ⟨k, rfl⟩
  rw [closeIter_succ_eq]
  refine ⟨rfl, close_sub_closed s, ?_, registryAfterClose_length reg i⟩
  unfold pgxSubscriber.Close
  simp only [hcl, Bool.false_eq_true, if_false]
  by_cases h2 : s.hasChannel <;> simp [h2, hou, hcc]

/-- Witness for C2 amended: three Close calls on a fresh channel-sink
subscriber close the channel exactly once and leave a one-element registry
at length one. -/
theorem close_idempotent_marks_closed_witness :
    closeIter 3 chanSub = (pgxSubscriber.Close chanSub).sub ∧
    (closeIter 3 chanSub).closed = true ∧
    (closeIter 3 chanSub).channelCloseCount =
      (if chanSub.hasChannel then 1 else 0) ∧
    (registryAfterClose [chanSub] 0).length = [chanSub].length :=
  close_idempotent_marks_closed 3 chanSub [chanSub] 0 (by decide) rfl rfl rfl

end PgxPubSub
